import Mathlib

/-!
Shallow embedding of the RMMS job-record access layer
(`utils/filter_section.py`, `utils/job_form.py`, `utils/job_edit_form.py`,
`utils/standby_comparison.py`, `utils/other_trains_comparison.py`,
`pages/Object_Details_page.py`).

Dates are modelled as `Int` day numbers with day 0 = 1970-01-01; SQLite
stores ISO `YYYY-MM-DD` strings whose lexicographic order coincides with
day-number order, and `date(x, '-N day')` is day subtraction.

String primitives (split, lower, trim, ...) are implemented structurally
over character lists so that every definition evaluates inside the kernel.
-/

namespace RMMS

/-! ### Structural string utilities -/

/-- Does `needle` occur as a contiguous subsequence of `hay` (Python's
`needle in hay`; an empty needle always occurs)? -/
def containsSeq (needle : List Char) : List Char → Bool
  | [] => needle.isEmpty
  | c :: rest => needle.isPrefixOf (c :: rest) || containsSeq needle rest

/-- Worker for the greedy split: while `skip` is positive the characters
belong to an already-recognized separator occurrence and are consumed
without extending any piece. Structural recursion on the character list,
so the kernel can evaluate it. -/
def splitSkip (sep : List Char) : List Char → Nat → List (List Char)
  | [], _ => [[]]
  | _ :: rest, skip + 1 => splitSkip sep rest skip
  | c :: rest, 0 =>
    if sep.isPrefixOf (c :: rest) then
      [] :: splitSkip sep rest (sep.length - 1)
    else
      match splitSkip sep rest 0 with
      | [] => [[c]]
      | h :: t => (c :: h) :: t

/-- Greedy left-to-right split of a character list on a non-empty separator
sequence — Python `str.split(sep)`. -/
def splitOnSeq (sep : List Char) (l : List Char) : List (List Char) :=
  splitSkip sep l 0

/-- Python `s.strip()` on a character list. -/
def pyStrip (s : List Char) : List Char :=
  ((s.dropWhile Char.isWhitespace).reverse.dropWhile Char.isWhitespace).reverse

/-- Python `s.split(sep)` at the string level. -/
def strSplitOn (s sep : String) : List String :=
  (splitOnSeq sep.toList s.toList).map String.mk

/-- Python `needle in hay` at the string level. -/
def strContains (hay needle : String) : Bool :=
  containsSeq needle.toList hay.toList

/-- Python `s.lower()` (ASCII). -/
def lowerStr (s : String) : String := String.mk (s.toList.map Char.toLower)

/-- Python `s.upper()` / SQL `UPPER` (ASCII). -/
def upperStr (s : String) : String := String.mk (s.toList.map Char.toUpper)

/-- Python `s.strip()` at the string level. -/
def trimStr (s : String) : String := String.mk (pyStrip s.toList)

/-- The whitespace-separated tokens of a string (Python `s.split()`). -/
def tokensWs : List Char → List (List Char)
  | [] => []
  | c :: rest =>
    let r := tokensWs rest
    if c.isWhitespace then r
    else if (rest.headD ' ').isWhitespace then [c] :: r
    else
      match r with
      | [] => [[c]]
      | h :: t => (c :: h) :: t

/-- Python `s.split()[0]`, with `""` when the string has no token (the
IndexError path, which the caller catches). -/
def firstTok (s : String) : String :=
  String.mk ((tokensWs s.toList).headD [])

/-- Python `s.isdigit() and int(s)`: `some` of the numeral value when the
string is non-empty and all-digits, else `none`. -/
def toNatQ (s : String) : Option Nat :=
  let l := s.toList
  if !l.isEmpty && l.all Char.isDigit then
    some (l.foldl (fun acc c => acc * 10 + (c.toNat - '0'.toNat)) 0)
  else none

/-- Insert a string into a sorted list (code-point order). -/
def insertStr (x : String) : List String → List String
  | [] => [x]
  | y :: t => if compare x y ≠ .gt then x :: y :: t else y :: insertStr x t

/-- Python `sorted` for lists of strings (insertion sort, code-point
order). -/
def sortStrs : List String → List String
  | [] => []
  | x :: t => insertStr x (sortStrs t)

/-! ### The filter-query builder (`render_filter_and_query`) -/

/-- SQL `LIKE '%pat%'` (SQLite LIKE is ASCII case-insensitive by default):
`pat` occurs as a substring of `hay`, compared case-insensitively. -/
def likeContains (hay pat : String) : Bool :=
  pat.isEmpty || strContains (lowerStr hay) (lowerStr pat)

/-- SQL `LIKE 'pat%'` (case-insensitive prefix match). -/
def likeStartsWith (pat hay : String) : Bool :=
  (pat.toList.map Char.toLower).isPrefixOf (hay.toList.map Char.toLower)

/-- Python `[v.strip() for v in s.split(",") if v.strip()]`. -/
def commaVals (s : String) : List String :=
  ((strSplitOn s ",").map trimStr).filter (fun v => !v.isEmpty)

/-- One row of the `job_reports` table, restricted to the columns read by
`render_filter_and_query`'s `base` CTE. -/
structure JobRow where
  job_indx : Nat
  date : Int
  tag : String
  department : String
  wo_number : String
  permit_number : String
  keywords : String
  job_description : String
  actual_start : Option Int
  job_type : String
  deriving Repr, DecidableEq

/-- One row of the `objects` table, restricted to the columns used by the
hierarchy filters of `render_filter_and_query`. -/
structure ObjRow where
  tag : String
  long_tag : String
  unit_code : String
  train : String
  deriving Repr, DecidableEq

/-- The filter configuration `render_filter_and_query` reads from session
state when it builds the SQL text (`user_from`/`user_to` are the
user-selected bounds, present only when `user_set_from_date` /
`user_set_to_date` is set). -/
structure FilterConfig where
  user_from : Option Int := none
  user_to : Option Int := none
  recent_days : String := ""
  job_type : String := "All"
  department : String := "All"
  wo : String := ""
  permit : String := ""
  keyword : String := ""
  tagF : String := ""
  actual_start : Option Int := none
  fatherF : String := ""
  unitF : String := ""
  trainF : String := ""
  deriving Repr

/-- Day number of 1970-01-01, the fallback From bound `datetime(1970,1,1)`. -/
def epochDay : Int := 0

/-- The "smart date logic" of `render_filter_and_query` over the three
relevant session values: Python `s_recent.isdigit() and int(s_recent) > 0`
selects the recent-days count, else 7; a user-supplied bound wins, with
missing From defaulting to 1970-01-01 and missing To defaulting to today. -/
def dateRangeF (user_from user_to : Option Int) (recent_days : String)
    (today : Int) : Int × Int :=
  if user_from.isSome || user_to.isSome then
    (user_from.getD epochDay, user_to.getD today)
  else
    let s := trimStr recent_days
    let n : Nat := match toNatQ s with
      | some k => if k > 0 then k else 7
      | none => 7
    (today - n, today)

/-- `dateRangeF` read off a filter configuration. -/
def dateRange (cfg : FilterConfig) (today : Int) : Int × Int :=
  dateRangeF cfg.user_from cfg.user_to cfg.recent_days today

/-- `b.date >= ? AND b.date <= ?` with the bounds from the smart date
logic. -/
def dateCond (user_from user_to : Option Int) (recent_days : String)
    (today : Int) (b : JobRow) : Bool :=
  let r := dateRangeF user_from user_to recent_days today
  decide (r.1 ≤ b.date) && decide (b.date ≤ r.2)

/-- `AND UPPER(b.job_type) = ?` when the job-type filter is not "All". -/
def jobTypeCond (job_type : String) (b : JobRow) : Bool :=
  job_type == "All" || upperStr b.job_type == upperStr job_type

/-- `AND UPPER(b.department) = ?` when the department filter is not "All". -/
def deptCond (department : String) (b : JobRow) : Bool :=
  department == "All" || upperStr b.department == upperStr department

/-- `AND b.wo_number LIKE ?` when the WO filter is non-blank. -/
def woCond (wo : String) (b : JobRow) : Bool :=
  (trimStr wo).isEmpty || likeContains b.wo_number (trimStr wo)

/-- `AND b.permit_number LIKE ?` when the permit filter is non-blank. -/
def permitCond (permit : String) (b : JobRow) : Bool :=
  (trimStr permit).isEmpty || likeContains b.permit_number (trimStr permit)

/-- `AND (b.keywords LIKE ? OR b.job_description LIKE ?)`. -/
def keywordCond (keyword : String) (b : JobRow) : Bool :=
  (trimStr keyword).isEmpty ||
    (likeContains b.keywords (trimStr keyword) ||
     likeContains b.job_description (trimStr keyword))

/-- `AND (b.Object_Tag LIKE ? OR ...)` over the comma-separated tag list. -/
def tagCond (tagF : String) (b : JobRow) : Bool :=
  (trimStr tagF).isEmpty ||
    (commaVals tagF).any (fun t => likeContains b.tag t)

/-- `AND date(b.actual_start) = ?`; a NULL `actual_start` never matches. -/
def actualCond (actual_start : Option Int) (b : JobRow) : Bool :=
  match actual_start with
  | none => true
  | some d => match b.actual_start with
    | none => false
    | some a => a == d

/-- `(o.Long_Tag = ? OR o.Long_Tag LIKE ?)` over the father-tag list; under
the LEFT JOIN a job row with no matching object compares against NULL and
fails the condition. -/
def fatherCond (fatherF : String) (o : Option ObjRow) : Bool :=
  (trimStr fatherF).isEmpty ||
    match o with
    | none => false
    | some o => (commaVals fatherF).any
        (fun v => o.long_tag == v || likeContains o.long_tag v)

/-- `(o.Unit_Code = ? OR ...)` over the unit list. -/
def unitCond (unitF : String) (o : Option ObjRow) : Bool :=
  (trimStr unitF).isEmpty ||
    match o with
    | none => false
    | some o => (commaVals unitF).any (fun v => o.unit_code == v)

/-- `(o.Train = ? OR ...)` over the train list. -/
def trainCond (trainF : String) (o : Option ObjRow) : Bool :=
  (trimStr trainF).isEmpty ||
    match o with
    | none => false
    | some o => (commaVals trainF).any (fun v => o.train == v)

/-- The whole WHERE clause of the built query, applied to a job row and its
(optionally joined) object row. -/
def rowPasses (cfg : FilterConfig) (today : Int) (o : Option ObjRow)
    (b : JobRow) : Bool :=
  dateCond cfg.user_from cfg.user_to cfg.recent_days today b &&
  jobTypeCond cfg.job_type b && deptCond cfg.department b &&
  woCond cfg.wo b && permitCond cfg.permit b && keywordCond cfg.keyword b &&
  tagCond cfg.tagF b && actualCond cfg.actual_start b &&
  fatherCond cfg.fatherF o && unitCond cfg.unitF o && trainCond cfg.trainF o

/-- `LEFT JOIN objects o ON o.Object_Tag = b.Object_Tag` against a table
whose `Object_Tag` is its primary key: at most one partner row. -/
def lookupObj (objs : List ObjRow) (tag : String) : Option ObjRow :=
  objs.find? (fun o => o.tag == tag)

/-- The rows of `job_reports` satisfying the built WHERE clause (the result
set before ORDER BY and LIMIT). -/
def matchingRows (db : List JobRow) (objs : List ObjRow) (cfg : FilterConfig)
    (today : Int) : List JobRow :=
  db.filter (fun b => rowPasses cfg today (lookupObj objs b.tag) b)

/-- `ORDER BY b.date DESC, b.job_indx DESC`. -/
def orderRows (l : List JobRow) : List JobRow :=
  l.mergeSort (fun a b =>
    decide (b.date < a.date) || (a.date == b.date && decide (b.job_indx ≤ a.job_indx)))

/-- The result set returned to the caller: ordered rows, capped by
`LIMIT 150`. -/
def queryResult (db : List JobRow) (objs : List ObjRow) (cfg : FilterConfig)
    (today : Int) : List JobRow :=
  (orderRows (matchingRows db objs cfg today)).take 150

/-- `SELECT COUNT(*) AS total FROM ({q})` — the count the code reports; the
subquery `q` still carries its `LIMIT 150`. -/
def reportedTotal (db : List JobRow) (objs : List ObjRow) (cfg : FilterConfig)
    (today : Int) : Nat :=
  (queryResult db objs cfg today).length

/-- The number of rows matching the predicate with no cap (what the spec
says the COUNT query reports). -/
def trueTotal (db : List JobRow) (objs : List ObjRow) (cfg : FilterConfig)
    (today : Int) : Nat :=
  (matchingRows db objs cfg today).length

/-- Correlated subquery `Count_MTD`: rows of the (unfiltered) `base` CTE
with the same `Object_Tag` and a date in the inclusive window
`[date(b.date,'-30 day'), b.date]`. -/
def count_MTD (db : List JobRow) (b : JobRow) : Nat :=
  (db.filter (fun x =>
    x.tag == b.tag && decide (x.date ≤ b.date) &&
    decide (b.date - 30 ≤ x.date))).length

/-- Correlated subquery `Count_YTD`: same window, 365 days back. -/
def count_YTD (db : List JobRow) (b : JobRow) : Nat :=
  (db.filter (fun x =>
    x.tag == b.tag && decide (x.date ≤ b.date) &&
    decide (b.date - 365 ≤ x.date))).length

/-! ### Gregorian day arithmetic (for `datetime.date` subtraction) -/

/-- Gregorian leap year. -/
def isLeap (y : Nat) : Bool := (y % 4 == 0 && y % 100 != 0) || y % 400 == 0

/-- Days in a Gregorian month. -/
def daysInMonth (y m : Nat) : Nat :=
  if m == 2 then (if isLeap y then 29 else 28)
  else if m == 4 || m == 6 || m == 9 || m == 11 then 30 else 31

/-- Day number of a Gregorian date `y-m-d` relative to 1970-01-01 (the civil
calendar algorithm); all intermediate quantities are nonnegative for CE
years, so truncating division agrees with floor. -/
def daysFromCivil (y m d : Nat) : Int :=
  let y' : Int := if m ≤ 2 then (y : Int) - 1 else (y : Int)
  let era : Int := y' / 400
  let yoe : Int := y' - era * 400
  let mp : Int := ((m : Int) + 9) % 12
  let doy : Int := (153 * mp + 2) / 5 + (d : Int) - 1
  let doe : Int := yoe * 365 + yoe / 4 - yoe / 100 + doy
  era * 146097 + doe - 719468

/-- `datetime.strptime(s, "%Y-%m-%d").date()` as a day number; `none` models
the `ValueError` path (malformed text or out-of-range month/day). -/
def parseISODate (s : String) : Option Int :=
  match strSplitOn s "-" with
  | [ys, ms, ds] =>
    match toNatQ ys, toNatQ ms, toNatQ ds with
    | some y, some m, some d =>
      if 1 ≤ m ∧ m ≤ 12 ∧ 1 ≤ d ∧ d ≤ daysInMonth y m then
        some (daysFromCivil y m d)
      else none
    | _, _, _ => none
  | _ => none

/-! ### Edit/delete permission gate (`pages/Object_Details_page.py`) -/

/-- Python's `needle in hay` substring test. -/
def pyIn (needle hay : String) : Bool :=
  needle.isEmpty || strContains hay needle

/-- `registered_by.split(" | ")[0].strip() if " | " in registered_by else
registered_by.strip()` — the original (first) audit segment. -/
def firstSegRaw (s : String) : String :=
  if pyIn " | " s then trimStr ((strSplitOn s " | ").headD "") else trimStr s

/-- `within_7_days` of Object_Details_page: parse the first segment of
`registered_date` and test `(today - reg_date).days <= 7`; any parse
failure leaves the flag `False`. -/
def within_7_days (registered_date : String) (today : Int) : Bool :=
  let f := firstSegRaw registered_date
  if f.isEmpty then false
  else
    match parseISODate (firstTok f) with
    | none => false
    | some d => decide (today - d ≤ 7)

/-- `edit_enabled = is_admin or (same_user and within_7_days)`, where
`same_user` is the case-insensitive substring test of the session username
against the first registrant segment (`registered_by` arrives
`.strip()`-ed, line 555). -/
def edit_enabled (is_admin : Bool) (username : String)
    (registered_by registered_date : String) (today : Int) : Bool :=
  let current_user := lowerStr username
  let first_registered_by := firstSegRaw (trimStr registered_by)
  let same_user := pyIn current_user (lowerStr first_registered_by)
  is_admin || (same_user && within_7_days registered_date today)

/-! ### Retry wrappers (`_read_query`, `_write_query`) -/

/-- Outcome of a single attempt to execute a statement: success, an
operational error recognized as a lock ("locked" / "database is locked" in
its message), or any other failure (schema error, constraint violation,
type mismatch, ...). -/
inductive DbOutcome (α : Type) where
  | ok : α → DbOutcome α
  | locked : String → DbOutcome α
  | err : String → DbOutcome α
  deriving Repr

/-- The attempt loop of `_read_query`: a recognized lock sleeps and moves to
the next attempt with no attempt-index test; a `for` loop that completes
falls through to `return pd.DataFrame()`, modelled by the designated
`empty` value wrapped in `.ok`. -/
def readAttempts {α : Type} (empty : α) (script : Nat → DbOutcome α) :
    Nat → Nat → Except String α
  | 0, _ => .ok empty
  | fuel + 1, i =>
    match script i with
    | .ok d => .ok d
    | .locked _ => readAttempts empty script fuel (i + 1)
    | .err e => .error e

/-- `_read_query(DB_PATH, sql, params, max_attempts)`. -/
def read_query {α : Type} (empty : α) (script : Nat → DbOutcome α)
    (max_attempts : Nat) : Except String α :=
  readAttempts empty script max_attempts 0

/-- The attempt loop of `_write_query`: a recognized lock retries only while
`attempt < max_attempts - 1` (remaining fuel after this attempt is
positive); on the final attempt the lock error is re-raised. -/
def writeAttempts {α : Type} (script : Nat → DbOutcome α) :
    Nat → Nat → Except String Bool
  | 0, _ => .ok false
  | fuel + 1, i =>
    match script i with
    | .ok _ => .ok true
    | .locked m => if 1 ≤ fuel then writeAttempts script fuel (i + 1) else .error m
    | .err e => .error e

/-- `_write_query(sql, params, max_attempts, delay)`. -/
def write_query {α : Type} (script : Nat → DbOutcome α)
    (max_attempts : Nat) : Except String Bool :=
  writeAttempts script max_attempts 0

/-! ### Insert and read-back (`save_job_to_db`, `df_job`) -/

/-- The 17 columns supplied by `save_job_to_db`'s INSERT (everything except
the surrogate `job_indx`). -/
structure JobData where
  date : String
  Object_Tag : String
  job_description : String
  keywords : String
  department : String
  wo_number : String
  permit_number : String
  status : String
  action_list : Int
  job_type : String
  employee : String
  performed_action : String
  route : String
  registered_by : String
  registered_date : String
  anomaly : Int
  actual_start : String
  deriving Repr, DecidableEq

/-- Modelled from the spec: the surrogate index is "assigned by the store"
(§4.4) and is "unique, immutable" (§3); SQLite's rowid assignment for a
fresh insert is one more than the largest index in the table. The table
creation DDL is not under src/. -/
def nextIndex (db : List (Nat × JobData)) : Nat :=
  (db.map Prod.fst).foldr max 0 + 1

/-- `save_job_to_db`: parameterized INSERT of the 17 supplied columns; the
store assigns the next surrogate index. -/
def save_job_to_db (db : List (Nat × JobData)) (jd : JobData) :
    List (Nat × JobData) :=
  db ++ [(nextIndex db, jd)]

/-- `SELECT ... FROM job_reports WHERE job_indx = ? LIMIT 1` of
Object_Details_page (the read-back of a record by its index). -/
def df_job (db : List (Nat × JobData)) (idx : Nat) : Option JobData :=
  (db.find? (fun r => r.1 == idx)).map Prod.snd

/-! ### Standby / typical-train heuristics -/

/-- Python `s.count(c)` for a single character. -/
def countChar (s : String) (c : Char) : Nat :=
  (s.toList.filter (fun a => a == c)).length

/-- `get_standby_variants` (standby_comparison.py): guard on the tag shape,
then `SELECT Object_Tag FROM objects WHERE Object_Tag LIKE 'root%'`,
`sorted(set(tags))`, and exclusion of the active tag itself. -/
def get_standby_variants (objects : List String) (active : String) :
    List String :=
  if active.isEmpty || countChar active '-' ≠ 2 || !active.back.isAlpha then []
  else
    let root := active.dropRight 1
    let tags := (objects.filter (fun t => likeStartsWith root t)).eraseDups
    (sortStrs tags).filter (fun t => t ≠ active)

/-- `extract_train_info` (other_trains_comparison.py): third hyphen block
must match `(\d{3})(.*)`; returns (prefix, number_block, suffix, tail). -/
def extract_train_info (tag : String) :
    Option (String × String × String × String) :=
  let parts := strSplitOn tag "-"
  if parts.length < 3 then none
  else
    let block := parts.getD 2 ""
    match block.toList with
    | a :: b :: c :: rest =>
      if a.isDigit && b.isDigit && c.isDigit then
        let number_block := String.mk [a, b, c]
        let suffix := String.mk rest
        let pre := String.intercalate "-" (parts.take 2) ++ "-"
        let tl :=
          if parts.length > 3 then "-" ++ String.intercalate "-" (parts.drop 3)
          else ""
        some (pre, number_block, suffix, tl)
      else none
    | _ => none

/-- The train loop of `generate_typicals`: try trains 1..6, reset the miss
counter on a hit, stop after two consecutive misses. -/
def typGo (exist : List String) (mk : Nat → String) :
    List Nat → Nat → List String
  | [], _ => []
  | t :: ts, miss =>
    let cand := mk t
    if exist.contains cand then cand :: typGo exist mk ts 0
    else if 2 ≤ miss + 1 then [] else typGo exist mk ts (miss + 1)

/-- `generate_typicals`: no train-info means no candidates; otherwise the
candidate for train `t` is `prefix + str(t) + number_block[1:] + suffix +
tail`. -/
def generate_typicals (exist : List String) (tag : String) : List String :=
  match extract_train_info tag with
  | none => []
  | some (pre, num, suf, tl) =>
    typGo exist
      (fun t => pre ++ toString t ++ String.mk (num.toList.drop 1) ++ suf ++ tl)
      [1, 2, 3, 4, 5, 6] 0

/-- `get_typical_family`: load all object tags under the main prefix, union
the active tag, its standby variants, and the typical trains generated from
each, and return the sorted set. -/
def get_typical_family (objects : List String) (active : String) :
    List String :=
  let parts := strSplitOn active "-"
  let prefix_main := String.intercalate "-" (parts.take 2) ++ "-"
  let exist := objects.filter (fun t => likeStartsWith prefix_main t)
  let standbys := get_standby_variants objects active
  let seeds := [active] ++ standbys
  let result := seeds ++ seeds.flatMap (fun t => generate_typicals exist t)
  sortStrs result.eraseDups

/-! ### Append-only audit trail (`render_edit_job_form`) -/

/-- The `" | "` audit separator. -/
def auditSep : List Char := [' ', '|', ' ']

/-- Does the separator occur (at any position) in `s`? -/
def hasSep (s : List Char) : Bool := containsSeq auditSep s

/-- Python `s.split(" | ")` for the audit proofs. -/
def splitSep (s : List Char) : List (List Char) := splitOnSeq auditSep s

/-- The audit-append step of `render_edit_job_form` (lines 127-136): strip
the stored field, add a `" | "` separator when the old text is non-empty
and does not already end with one, then append the new segment. -/
def appendAudit (old seg : List Char) : List Char :=
  let o := pyStrip old
  let o2 := if !o.isEmpty && !auditSep.isSuffixOf o then o ++ auditSep else o
  o2 ++ seg

/-- A well-formed audit segment: non-empty, separator-free, and neither
starting nor ending in whitespace, nor ending in a bar — the shape of the
`"<user> (<machine>)"` and `"<user> (<machine>) (modifier)"` strings the
insert and edit paths write. -/
def goodSeg (s : List Char) : Bool :=
  !s.isEmpty && !hasSep s &&
  !(s.headD ' ').isWhitespace &&
  !(s.getLastD ' ').isWhitespace && (s.getLastD ' ') != '|'

/-- The accumulated audit-field invariant: non-empty, not starting or
ending in whitespace, not ending in a bar (so appending keeps the
`" | "`-segment structure intact). -/
def goodAcc (s : List Char) : Bool :=
  !s.isEmpty && !(s.headD ' ').isWhitespace &&
  !(s.getLastD ' ').isWhitespace && (s.getLastD ' ') != '|'

/-! ### Spec-side predicates and fixtures -/

/-- Spec-side formulation of the (amended) permission rule, written from
§4.4 of the spec: admin bypass, or a case-insensitive substring match of
the username against the first registrant segment together with an attempt
whose date is within 7 days (inclusive) of the parsed original
registration date. -/
def editAllowedSpec (is_admin : Bool) (username : String)
    (registered_by registered_date : String) (today : Int) : Prop :=
  is_admin = true ∨
    (pyIn (lowerStr username) (lowerStr (firstSegRaw (trimStr registered_by)))
        = true ∧
     ∃ d, parseISODate (firstTok (firstSegRaw registered_date)) = some d ∧
       today - d ≤ 7)

/-- `cfg'` is `cfg` with exactly one additional non-empty filter switched
on, for each of the ten optional filters of the query builder. -/
inductive FilterAdd : FilterConfig → FilterConfig → Prop
  | jobType (cfg : FilterConfig) (v : String) (h : cfg.job_type = "All")
      (hv : v ≠ "All") : FilterAdd cfg { cfg with job_type := v }
  | dept (cfg : FilterConfig) (v : String) (h : cfg.department = "All")
      (hv : v ≠ "All") : FilterAdd cfg { cfg with department := v }
  | wo (cfg : FilterConfig) (v : String) (h : trimStr cfg.wo = "")
      (hv : trimStr v ≠ "") : FilterAdd cfg { cfg with wo := v }
  | permit (cfg : FilterConfig) (v : String) (h : trimStr cfg.permit = "")
      (hv : trimStr v ≠ "") : FilterAdd cfg { cfg with permit := v }
  | keyword (cfg : FilterConfig) (v : String) (h : trimStr cfg.keyword = "")
      (hv : trimStr v ≠ "") : FilterAdd cfg { cfg with keyword := v }
  | tag (cfg : FilterConfig) (v : String) (h : trimStr cfg.tagF = "")
      (hv : trimStr v ≠ "") : FilterAdd cfg { cfg with tagF := v }
  | actual (cfg : FilterConfig) (d : Int) (h : cfg.actual_start = none) :
      FilterAdd cfg { cfg with actual_start := some d }
  | father (cfg : FilterConfig) (v : String) (h : trimStr cfg.fatherF = "")
      (hv : trimStr v ≠ "") : FilterAdd cfg { cfg with fatherF := v }
  | unit (cfg : FilterConfig) (v : String) (h : trimStr cfg.unitF = "")
      (hv : trimStr v ≠ "") : FilterAdd cfg { cfg with unitF := v }
  | train (cfg : FilterConfig) (v : String) (h : trimStr cfg.trainF = "")
      (hv : trimStr v ≠ "") : FilterAdd cfg { cfg with trainF := v }

/-- A minimal job row (only `job_indx` varies); used to build concrete
database states. -/
def simpleRow (i : Nat) : JobRow :=
  { job_indx := i, date := 0, tag := "T-1", department := "", wo_number := "",
    permit_number := "", keywords := "", job_description := "",
    actual_start := none, job_type := "CM" }

/-- A database state with 151 job rows, all matching the widest filter. -/
def db151 : List JobRow := (List.range 151).map simpleRow

/-- A filter configuration whose predicate accepts every row of `db151`. -/
def cfgWide : FilterConfig := { user_from := some (-1), user_to := some 1 }

/-- A job report for the rolling-window scenario at day `d`. -/
def reportAt (d : Int) : JobRow :=
  { job_indx := 0, date := d, tag := "103-K-101A", department := "",
    wo_number := "", permit_number := "", keywords := "",
    job_description := "", actual_start := none, job_type := "CM" }

/-- The `job_reports` contents of the rolling-window scenario: one tag with
reports on days D-40, D-20, D-5 and D only. -/
def fourReports (D : Int) : List JobRow :=
  [reportAt (D - 40), reportAt (D - 20), reportAt (D - 5), reportAt D]

/-- `objects` for the standby/typical scenario: standby pair 103-K-101A/B,
typical trains 2, 4, 5, 6 present and train 3 missing. -/
def objectsT4 : List String :=
  ["103-K-101A", "103-K-101B", "103-K-201A", "103-K-401A", "103-K-501A",
   "103-K-601A"]

/-- `objects` with trains 3 AND 4 both missing (trains 5 and 6 still
present), exercising the two-consecutive-miss cutoff. -/
def objectsT34 : List String :=
  ["103-K-101A", "103-K-101B", "103-K-201A", "103-K-501A", "103-K-601A"]

/-- The family the claim asserts for the `objectsT4` scenario. -/
def claimedFamily : List String :=
  ["103-K-101B", "103-K-101A", "103-K-201A", "103-K-501A", "103-K-601A"]

/-- Does the string begin with three (ASCII) digits — the `re.match`
`(\d{3})(.*)` test on the third hyphen block. -/
def startsWithThreeDigits (s : String) : Bool :=
  match s.toList with
  | a :: b :: c :: _ => a.isDigit && b.isDigit && c.isDigit
  | _ => false

/-! ## Supporting lemmas -/

theorem le_foldr_max (l : List Nat) (x : Nat) (hx : x ∈ l) :
    x ≤ l.foldr max 0 := by
  induction l with
  | nil => cases hx
  | cons a t ih =>
    rcases List.mem_cons.mp hx with h | h
    · subst h; exact le_max_left _ _
    · exact le_trans (ih h) (le_max_right _ _)

theorem index_lt_nextIndex (db : List (Nat × JobData)) (p : Nat × JobData)
    (hp : p ∈ db) : p.1 < nextIndex db := by
  unfold nextIndex
  have hm : p.1 ∈ db.map Prod.fst := List.mem_map_of_mem _ hp
  exact Nat.lt_succ_of_le (le_foldr_max _ _ hm)

theorem readAttempts_ok {α : Type} {e : α} {s : Nat → DbOutcome α} {i : Nat}
    {d : α} (fuel : Nat) (h : s i = .ok d) :
    readAttempts e s (fuel + 1) i = .ok d := by
  simp only [readAttempts]
  rw [h]

theorem readAttempts_locked {α : Type} {e : α} {s : Nat → DbOutcome α}
    {i : Nat} {m : String} (fuel : Nat) (h : s i = .locked m) :
    readAttempts e s (fuel + 1) i = readAttempts e s fuel (i + 1) := by
  simp only [readAttempts]
  rw [h]

theorem readAttempts_err {α : Type} {e : α} {s : Nat → DbOutcome α} {i : Nat}
    {m : String} (fuel : Nat) (h : s i = .err m) :
    readAttempts e s (fuel + 1) i = .error m := by
  simp only [readAttempts]
  rw [h]

theorem writeAttempts_ok {α : Type} {s : Nat → DbOutcome α} {i : Nat} {d : α}
    (fuel : Nat) (h : s i = .ok d) :
    writeAttempts s (fuel + 1) i = .ok true := by
  simp only [writeAttempts]
  rw [h]

theorem writeAttempts_err {α : Type} {s : Nat → DbOutcome α} {i : Nat}
    {m : String} (fuel : Nat) (h : s i = .err m) :
    writeAttempts s (fuel + 1) i = .error m := by
  simp only [writeAttempts]
  rw [h]

theorem writeAttempts_locked_retry {α : Type} {s : Nat → DbOutcome α}
    {i : Nat} {m : String} (fuel : Nat) (hf : 1 ≤ fuel)
    (h : s i = .locked m) :
    writeAttempts s (fuel + 1) i = writeAttempts s fuel (i + 1) := by
  simp only [writeAttempts]
  rw [h]
  simp [hf]

theorem writeAttempts_locked_last {α : Type} {s : Nat → DbOutcome α}
    {i : Nat} {m : String} (h : s i = .locked m) :
    writeAttempts s (0 + 1) i = .error m := by
  simp only [writeAttempts]
  rw [h]
  simp

theorem reported_min (db : List JobRow) (objs : List ObjRow)
    (cfg : FilterConfig) (today : Int) :
    reportedTotal db objs cfg today = min 150 (trueTotal db objs cfg today) := by
  unfold reportedTotal queryResult trueTotal orderRows
  rw [List.length_take, List.length_mergeSort]

/-! ## Claim theorems -/

/-- C9: inserting a JobReport via `save_job_to_db` and reading it back by
its assigned index with `df_job`'s query returns exactly the supplied
attribute values. -/
theorem insert_roundtrip (db : List (Nat × JobData)) (jd : JobData) :
    df_job (save_job_to_db db jd) (nextIndex db) = some jd := by
  unfold df_job save_job_to_db
  rw [List.find?_append]
  have h1 : db.find? (fun r => r.1 == nextIndex db) = none := by
    rw [List.find?_eq_none]
    intro p hp
    simp only [beq_iff_eq]
    exact Nat.ne_of_lt (index_lt_nextIndex db p hp)
  rw [h1]
  simp [List.find?]

/-- C8: the query's date range is always present and inclusive; with no
user-supplied bound it spans the last 7 days (or a positive numeric
recent-days count), and a single supplied bound is completed with
1970-01-01 resp. today. -/
theorem date_range_defaults (today : Int) :
    (∀ cfg : FilterConfig, cfg.user_from = none → cfg.user_to = none →
        toNatQ (trimStr cfg.recent_days) = none →
        dateRange cfg today = (today - 7, today)) ∧
    (∀ cfg : FilterConfig, cfg.user_from = none → cfg.user_to = none →
        ∀ n : Nat, toNatQ (trimStr cfg.recent_days) = some n → 0 < n →
        dateRange cfg today = (today - n, today)) ∧
    (∀ cfg : FilterConfig, cfg.user_from = none → cfg.user_to = none →
        toNatQ (trimStr cfg.recent_days) = some 0 →
        dateRange cfg today = (today - 7, today)) ∧
    (∀ (f : Int) (cfg : FilterConfig), cfg.user_from = some f →
        cfg.user_to = none → dateRange cfg today = (f, today)) ∧
    (∀ (t : Int) (cfg : FilterConfig), cfg.user_from = none →
        cfg.user_to = some t → dateRange cfg today = (epochDay, t)) ∧
    (∀ (f t : Int) (cfg : FilterConfig), cfg.user_from = some f →
        cfg.user_to = some t → dateRange cfg today = (f, t)) ∧
    (∀ (f t : Int) (b : JobRow),
        rowPasses { user_from := some f, user_to := some t } today none b
          = true ↔ f ≤ b.date ∧ b.date ≤ t) := by
  refine ⟨?_, ?_, ?_, ?_, ?_, ?_, ?_⟩
  · intro cfg h1 h2 h3
    simp [dateRange, dateRangeF, h1, h2, h3]
  · intro cfg h1 h2 n h3 hn
    simp [dateRange, dateRangeF, h1, h2, h3, hn]
  · intro cfg h1 h2 h3
    simp [dateRange, dateRangeF, h1, h2, h3]
  · intro f cfg h1 h2
    simp [dateRange, dateRangeF, h1, h2]
  · intro t cfg h1 h2
    simp [dateRange, dateRangeF, h1, h2]
  · intro f t cfg h1 h2
    simp [dateRange, dateRangeF, h1, h2]
  · intro f t b
    have h2 : rowPasses { user_from := some f, user_to := some t } today none b
        = (decide (f ≤ b.date) && decide (b.date ≤ t)) := by
      simp [rowPasses, dateCond, dateRangeF, jobTypeCond, deptCond, woCond,
        permitCond, keywordCond, tagCond, actualCond, fatherCond, unitCond,
        trainCond, show ((trimStr "").isEmpty) = true from rfl]
    rw [h2]
    simp

/-- C6 (counterexample): with the standby pair, train 3 missing and train 4
present, the computed family contains 103-K-401A, which the claimed result
set omits — so the claimed exact equality fails. -/
theorem typical_family_cex :
    "103-K-401A" ∈ get_typical_family objectsT4 "103-K-101A" ∧
    "103-K-401A" ∉ claimedFamily := by
  decide

/-- C6 (amended): the standby/typical lookup from 103-K-101A returns
exactly {101A, 101B, 201A, 401A, 501A, 601A} when only train 3 is missing
(the miss counter resets at train 4), and stops at {101A, 101B, 201A} when
trains 3 and 4 are both missing (two consecutive misses), even though
501A/601A exist. -/
theorem typical_family_fixture :
    get_typical_family objectsT4 "103-K-101A" =
      ["103-K-101A", "103-K-101B", "103-K-201A", "103-K-401A", "103-K-501A",
       "103-K-601A"] ∧
    get_typical_family objectsT34 "103-K-101A" =
      ["103-K-101A", "103-K-101B", "103-K-201A"] ∧
    get_standby_variants objectsT4 "103-K-101A" = ["103-K-101B"] := by
  refine ⟨by decide, by decide, by decide⟩

/-- C10: the tag-parsing guards are total: a tag that is empty, lacks
exactly two hyphens, or does not end in a letter yields `[]` from
`get_standby_variants` for every database; `extract_train_info` returns
`none` when there are fewer than three hyphen blocks or the third block
does not begin with three digits, and then `generate_typicals` yields no
candidates. -/
theorem tag_parsing_guards :
    (∀ (objects : List String) (tag : String),
        tag.isEmpty = true ∨ countChar tag '-' ≠ 2 ∨ tag.back.isAlpha = false →
        get_standby_variants objects tag = []) ∧
    (∀ (exist : List String) (tag : String), extract_train_info tag = none →
        generate_typicals exist tag = []) ∧
    (∀ tag : String,
        (strSplitOn tag "-").length < 3 ∨
          startsWithThreeDigits ((strSplitOn tag "-").getD 2 "") = false →
        extract_train_info tag = none) := by
  refine ⟨?_, ?_, ?_⟩
  · intro objects tag h
    unfold get_standby_variants
    rcases h with h | h | h
    · simp [h]
    · simp [h]
    · simp [h]
  · intro exist tag h
    unfold generate_typicals
    rw [h]
  · intro tag h
    unfold extract_train_info
    rcases h with h | h
    · simp [h]
    · by_cases hl : (strSplitOn tag "-").length < 3
      · simp [hl]
      · simp only [hl, if_false]
        unfold startsWithThreeDigits at h
        rcases e : ((strSplitOn tag "-").getD 2 "").toList with
          _ | ⟨a, _ | ⟨b, _ | ⟨c, rest⟩⟩⟩ <;>
          · simp only [e] at h ⊢
            try simp [h]

/-- Witness for C10: concrete guard-tripping inputs. -/
theorem tag_parsing_guards_witness :
    (countChar "103-K" '-' ≠ 2 ∧ get_standby_variants ["X"] "103-K" = []) ∧
    (extract_train_info "104-KM" = none ∧
      generate_typicals ["X"] "104-KM" = []) ∧
    (startsWithThreeDigits ((strSplitOn "104-KM-3A" "-").getD 2 "") = false ∧
      extract_train_info "104-KM-3A" = none) :=
  ⟨⟨by decide, tag_parsing_guards.1 ["X"] "103-K" (Or.inr (Or.inl (by decide)))⟩,
   ⟨by decide, tag_parsing_guards.2.1 ["X"] "104-KM" (by decide)⟩,
   ⟨by decide, tag_parsing_guards.2.2 "104-KM-3A" (Or.inr (by decide))⟩⟩

/-- Witness for C8: the recent-days default, a supplied single bound, and
the inclusive predicate at concrete values. -/
theorem date_range_defaults_witness :
    (toNatQ (trimStr ("30" : String)) = some 30 ∧
      dateRange { recent_days := "30" } 100 = (70, 100)) ∧
    (toNatQ (trimStr ("" : String)) = none ∧
      dateRange {} 100 = (93, 100)) ∧
    dateRange { user_from := some 5 } 100 = (5, 100) ∧
    dateRange { user_to := some 50 } 100 = (epochDay, 50) ∧
    (rowPasses { user_from := some 5, user_to := some 50 } 100 none
        (simpleRow 0) = true ↔ 5 ≤ (0 : Int) ∧ (0 : Int) ≤ 50) :=
  ⟨⟨by decide, (date_range_defaults 100).2.1 { recent_days := "30" } rfl rfl
      30 (by decide) (by decide)⟩,
   ⟨by decide, (date_range_defaults 100).1 {} rfl rfl (by decide)⟩,
   (date_range_defaults 100).2.2.2.1 5 { user_from := some 5 } rfl rfl,
   (date_range_defaults 100).2.2.2.2.1 50 { user_to := some 50 } rfl rfl,
   (date_range_defaults 100).2.2.2.2.2.2 5 50 (simpleRow 0)⟩

theorem within_iff (rd : String) (today : Int) :
    within_7_days rd today = true ↔
      ∃ d, parseISODate (firstTok (firstSegRaw rd)) = some d ∧
        today - d ≤ 7 := by
  unfold within_7_days
  by_cases hf : (firstSegRaw rd).isEmpty
  · rw [(String.isEmpty_iff (firstSegRaw rd)).mp hf]
    simp [show parseISODate (firstTok "") = none from rfl]
  · simp only [hf, if_false, Bool.false_eq_true]
    cases hp : parseISODate (firstTok (firstSegRaw rd)) with
    | none => simp [hp]
    | some d => simp [hp]

/-- C2 (counterexample): a non-admin registrant editing exactly 7 days
after the original registration date (2026-01-01 edited on 2026-01-08) is
ALLOWED by the code — the test is `days <= 7` — refuting the claim that a
7-day-old record is already rejected. -/
theorem edit_day7_allowed_cex :
    edit_enabled false "Alice" "alice (PC1)" "2026-01-01"
      (daysFromCivil 2026 1 8) = true := by
  decide

/-- C2 (amended): edit/delete is enabled exactly when the user is an admin,
or the username matches the first registrant segment case-insensitively as
a substring and the attempt is at most 7 days (inclusive: day 7 allowed,
day 8 rejected) after the original registration date. -/
theorem edit_enabled_iff (is_admin : Bool) (username : String)
    (registered_by registered_date : String) (today : Int) :
    edit_enabled is_admin username registered_by registered_date today = true
      ↔ editAllowedSpec is_admin username registered_by registered_date
          today := by
  unfold edit_enabled editAllowedSpec
  cases is_admin
  · simp only [Bool.false_or, Bool.and_eq_true, Bool.false_eq_true, false_or]
    rw [within_iff]
  · simp

/-- Boundary facts accompanying C2: day 8 is rejected for the registrant,
day 6 allowed, and an admin succeeds regardless of user and date. -/
theorem edit_boundary_facts :
    edit_enabled false "Alice" "alice (PC1)" "2026-01-01"
      (daysFromCivil 2026 1 9) = false ∧
    edit_enabled false "Alice" "alice (PC1)" "2026-01-01"
      (daysFromCivil 2026 1 7) = true ∧
    (∀ (u rb rd : String) (t : Int), edit_enabled true u rb rd t = true) := by
  refine ⟨by decide, by decide, ?_⟩
  intro u rb rd t
  rfl

/-- C1 (code_bug evidence): with 151 rows matching the predicate the capped
result set has 150 rows, and the code's COUNT — `SELECT COUNT(*) FROM
({q})` over the still-LIMITed subquery — also reports only 150, while the
true uncapped total is 151: the reported total can never exceed the cap. -/
theorem count_query_capped :
    reportedTotal db151 [] cfgWide 0 = 150 ∧
    trueTotal db151 [] cfgWide 0 = 151 := by
  have ht : trueTotal db151 [] cfgWide 0 = 151 := by
    unfold trueTotal matchingRows
    rw [List.filter_eq_self.mpr]
    · simp [db151]
    · intro b hb
      simp only [db151, List.mem_map] at hb
      obtain ⟨i, hi, rfl⟩ := hb
      rfl
  refine ⟨?_, ht⟩
  rw [reported_min, ht]
  omega

/-- C5: the rolling 30/365-day counts are anchored at each row's own date
with inclusive bounds: in the four-report scenario (reports at D-40, D-20,
D-5, D for one tag) the row at D counts 3 within 30 days and 4 within 365;
the row at D-5 counts only 2 in its own 30-day window, showing the anchor
is per-row. -/
theorem rolling_window_counts (D : Int) :
    count_MTD (fourReports D) (reportAt D) = 3 ∧
    count_YTD (fourReports D) (reportAt D) = 4 ∧
    count_MTD (fourReports D) (reportAt (D - 5)) = 2 := by
  refine ⟨?_, ?_, ?_⟩ <;>
  · simp only [count_MTD, count_YTD, fourReports, reportAt,
      List.filter_cons, List.filter_nil, Bool.and_eq_true, beq_iff_eq,
      decide_eq_true_eq]
    split_ifs <;> simp_all <;> omega

/-- C3 (counterexample): five consecutive locked errors make `_read_query`
fall out of its retry loop and return a bare `pd.DataFrame()` — the caller
sees a successful empty result, not a surfaced error. -/
theorem read_retry_swallow_cex :
    read_query ([] : List Nat) (fun _ => .locked "database is locked") 5 =
      .ok [] := rfl

/-- C3 (amended): a recognized lock error sleeps and retries up to 5 read /
3 write attempts; other errors propagate immediately on the first attempt;
after exhaustion the WRITE wrapper re-raises the lock error, while the READ
wrapper returns an empty result instead of surfacing it. -/
theorem retry_wrapper_contract :
    (∀ (α : Type) (e : α) (script : Nat → DbOutcome α),
        (∀ i, i < 5 → ∃ m, script i = .locked m) →
        read_query e script 5 = .ok e) ∧
    (∀ (α : Type) (e : α) (script : Nat → DbOutcome α) (msg : String),
        script 0 = .err msg → read_query e script 5 = .error msg) ∧
    (∀ (α : Type) (e : α) (script : Nat → DbOutcome α) (d : α) (m : String),
        script 0 = .locked m → script 1 = .ok d →
        read_query e script 5 = .ok d) ∧
    (∀ (α : Type) (script : Nat → DbOutcome α) (m : Nat → String),
        (∀ i, i < 3 → script i = .locked (m i)) →
        write_query script 3 = .error (m 2)) ∧
    (∀ (α : Type) (script : Nat → DbOutcome α) (msg : String),
        script 0 = .err msg → write_query script 3 = .error msg) ∧
    (∀ (α : Type) (script : Nat → DbOutcome α) (d : α) (m : String),
        script 0 = .locked m → script 1 = .ok d →
        write_query script 3 = .ok true) := by
  refine ⟨?_, ?_, ?_, ?_, ?_, ?_⟩
  · intro α e s h
    obtain ⟨m0, h0⟩ := h 0 (by omega)
    obtain ⟨m1, h1⟩ := h 1 (by omega)
    obtain ⟨m2, h2⟩ := h 2 (by omega)
    obtain ⟨m3, h3⟩ := h 3 (by omega)
    obtain ⟨m4, h4⟩ := h 4 (by omega)
    calc read_query e s 5 = readAttempts e s 4 1 := readAttempts_locked 4 h0
      _ = readAttempts e s 3 2 := readAttempts_locked 3 h1
      _ = readAttempts e s 2 3 := readAttempts_locked 2 h2
      _ = readAttempts e s 1 4 := readAttempts_locked 1 h3
      _ = readAttempts e s 0 5 := readAttempts_locked 0 h4
      _ = .ok e := rfl
  · intro α e s msg h0
    exact readAttempts_err 4 h0
  · intro α e s d m h0 h1
    calc read_query e s 5 = readAttempts e s 4 1 := readAttempts_locked 4 h0
      _ = .ok d := readAttempts_ok 3 h1
  · intro α s m h
    calc write_query s 3 = writeAttempts s 2 1 :=
          writeAttempts_locked_retry 2 (by omega) (h 0 (by omega))
      _ = writeAttempts s 1 2 :=
          writeAttempts_locked_retry 1 (by omega) (h 1 (by omega))
      _ = .error (m 2) := writeAttempts_locked_last (h 2 (by omega))
  · intro α s msg h0
    exact writeAttempts_err 2 h0
  · intro α s d m h0 h1
    calc write_query s 3 = writeAttempts s 2 1 :=
          writeAttempts_locked_retry 2 (by omega) h0
      _ = .ok true := writeAttempts_ok 1 h1

/-- Witness for C3: concrete scripts exercising the exhaustion and
immediate-propagation paths of both wrappers. -/
theorem retry_wrapper_contract_witness :
    read_query ([] : List Nat) (fun _ => .locked "database is locked") 5 =
      .ok [] ∧
    write_query (fun _ => (.locked "database is locked" : DbOutcome Nat)) 3 =
      .error "database is locked" ∧
    read_query ([] : List Nat) (fun _ => .err "no such table") 5 =
      .error "no such table" ∧
    write_query (fun _ => (.err "constraint failed" : DbOutcome Nat)) 3 =
      .error "constraint failed" :=
  ⟨retry_wrapper_contract.1 _ [] _ (fun _ _ => ⟨"database is locked", rfl⟩),
   retry_wrapper_contract.2.2.2.1 _ _ (fun _ => "database is locked")
     (fun _ _ => rfl),
   retry_wrapper_contract.2.1 _ [] _ "no such table" rfl,
   retry_wrapper_contract.2.2.2.2.1 _ _ "constraint failed" rfl⟩

/-- Monotonicity core for C7: a configuration with one more active filter
accepts only rows the base configuration accepts. -/
theorem rowPasses_imp {cfg cfg' : FilterConfig} (h : FilterAdd cfg cfg')
    (today : Int) (o : Option ObjRow) (b : JobRow)
    (hp : rowPasses cfg' today o b = true) :
    rowPasses cfg today o b = true := by
  cases h with
  | jobType v h hv =>
    have hw : jobTypeCond cfg.job_type b = true := by
      unfold jobTypeCond; rw [h]; rfl
    simp only [rowPasses, Bool.and_eq_true] at hp ⊢
    obtain ⟨⟨⟨⟨⟨⟨⟨⟨⟨⟨h1, h2⟩, h3⟩, h4⟩, h5⟩, h6⟩, h7⟩, h8⟩, h9⟩, h10⟩, h11⟩ := hp
    exact ⟨⟨⟨⟨⟨⟨⟨⟨⟨⟨h1, hw⟩, h3⟩, h4⟩, h5⟩, h6⟩, h7⟩, h8⟩, h9⟩, h10⟩, h11⟩
  | dept v h hv =>
    have hw : deptCond cfg.department b = true := by
      unfold deptCond; rw [h]; rfl
    simp only [rowPasses, Bool.and_eq_true] at hp ⊢
    obtain ⟨⟨⟨⟨⟨⟨⟨⟨⟨⟨h1, h2⟩, h3⟩, h4⟩, h5⟩, h6⟩, h7⟩, h8⟩, h9⟩, h10⟩, h11⟩ := hp
    exact ⟨⟨⟨⟨⟨⟨⟨⟨⟨⟨h1, h2⟩, hw⟩, h4⟩, h5⟩, h6⟩, h7⟩, h8⟩, h9⟩, h10⟩, h11⟩
  | wo v h hv =>
    have hw : woCond cfg.wo b = true := by
      unfold woCond; rw [h]; rfl
    simp only [rowPasses, Bool.and_eq_true] at hp ⊢
    obtain ⟨⟨⟨⟨⟨⟨⟨⟨⟨⟨h1, h2⟩, h3⟩, h4⟩, h5⟩, h6⟩, h7⟩, h8⟩, h9⟩, h10⟩, h11⟩ := hp
    exact ⟨⟨⟨⟨⟨⟨⟨⟨⟨⟨h1, h2⟩, h3⟩, hw⟩, h5⟩, h6⟩, h7⟩, h8⟩, h9⟩, h10⟩, h11⟩
  | permit v h hv =>
    have hw : permitCond cfg.permit b = true := by
      unfold permitCond; rw [h]; rfl
    simp only [rowPasses, Bool.and_eq_true] at hp ⊢
    obtain ⟨⟨⟨⟨⟨⟨⟨⟨⟨⟨h1, h2⟩, h3⟩, h4⟩, h5⟩, h6⟩, h7⟩, h8⟩, h9⟩, h10⟩, h11⟩ := hp
    exact ⟨⟨⟨⟨⟨⟨⟨⟨⟨⟨h1, h2⟩, h3⟩, h4⟩, hw⟩, h6⟩, h7⟩, h8⟩, h9⟩, h10⟩, h11⟩
  | keyword v h hv =>
    have hw : keywordCond cfg.keyword b = true := by
      unfold keywordCond; rw [h]; rfl
    simp only [rowPasses, Bool.and_eq_true] at hp ⊢
    obtain ⟨⟨⟨⟨⟨⟨⟨⟨⟨⟨h1, h2⟩, h3⟩, h4⟩, h5⟩, h6⟩, h7⟩, h8⟩, h9⟩, h10⟩, h11⟩ := hp
    exact ⟨⟨⟨⟨⟨⟨⟨⟨⟨⟨h1, h2⟩, h3⟩, h4⟩, h5⟩, hw⟩, h7⟩, h8⟩, h9⟩, h10⟩, h11⟩
  | tag v h hv =>
    have hw : tagCond cfg.tagF b = true := by
      unfold tagCond; rw [h]; rfl
    simp only [rowPasses, Bool.and_eq_true] at hp ⊢
    obtain ⟨⟨⟨⟨⟨⟨⟨⟨⟨⟨h1, h2⟩, h3⟩, h4⟩, h5⟩, h6⟩, h7⟩, h8⟩, h9⟩, h10⟩, h11⟩ := hp
    exact ⟨⟨⟨⟨⟨⟨⟨⟨⟨⟨h1, h2⟩, h3⟩, h4⟩, h5⟩, h6⟩, hw⟩, h8⟩, h9⟩, h10⟩, h11⟩
  | actual d h =>
    have hw : actualCond cfg.actual_start b = true := by
      unfold actualCond; rw [h]
    simp only [rowPasses, Bool.and_eq_true] at hp ⊢
    obtain ⟨⟨⟨⟨⟨⟨⟨⟨⟨⟨h1, h2⟩, h3⟩, h4⟩, h5⟩, h6⟩, h7⟩, h8⟩, h9⟩, h10⟩, h11⟩ := hp
    exact ⟨⟨⟨⟨⟨⟨⟨⟨⟨⟨h1, h2⟩, h3⟩, h4⟩, h5⟩, h6⟩, h7⟩, hw⟩, h9⟩, h10⟩, h11⟩
  | father v h hv =>
    have hw : fatherCond cfg.fatherF o = true := by
      unfold fatherCond; rw [h]; rfl
    simp only [rowPasses, Bool.and_eq_true] at hp ⊢
    obtain ⟨⟨⟨⟨⟨⟨⟨⟨⟨⟨h1, h2⟩, h3⟩, h4⟩, h5⟩, h6⟩, h7⟩, h8⟩, h9⟩, h10⟩, h11⟩ := hp
    exact ⟨⟨⟨⟨⟨⟨⟨⟨⟨⟨h1, h2⟩, h3⟩, h4⟩, h5⟩, h6⟩, h7⟩, h8⟩, hw⟩, h10⟩, h11⟩
  | unit v h hv =>
    have hw : unitCond cfg.unitF o = true := by
      unfold unitCond; rw [h]; rfl
    simp only [rowPasses, Bool.and_eq_true] at hp ⊢
    obtain ⟨⟨⟨⟨⟨⟨⟨⟨⟨⟨h1, h2⟩, h3⟩, h4⟩, h5⟩, h6⟩, h7⟩, h8⟩, h9⟩, h10⟩, h11⟩ := hp
    exact ⟨⟨⟨⟨⟨⟨⟨⟨⟨⟨h1, h2⟩, h3⟩, h4⟩, h5⟩, h6⟩, h7⟩, h8⟩, h9⟩, hw⟩, h11⟩
  | train v h hv =>
    have hw : trainCond cfg.trainF o = true := by
      unfold trainCond; rw [h]; rfl
    simp only [rowPasses, Bool.and_eq_true] at hp ⊢
    obtain ⟨⟨⟨⟨⟨⟨⟨⟨⟨⟨h1, h2⟩, h3⟩, h4⟩, h5⟩, h6⟩, h7⟩, h8⟩, h9⟩, h10⟩, h11⟩ := hp
    exact ⟨⟨⟨⟨⟨⟨⟨⟨⟨⟨h1, h2⟩, h3⟩, h4⟩, h5⟩, h6⟩, h7⟩, h8⟩, h9⟩, h10⟩, hw⟩

/-- C7: adding one additional non-empty filter (job type, department, WO,
permit, keyword, tag list, actual start date, father-tag list, unit list,
or train list) never increases the number of rows returned by the query,
for every database state. -/
theorem filter_monotone (db : List JobRow) (objs : List ObjRow) (today : Int)
    (cfg cfg' : FilterConfig) (h : FilterAdd cfg cfg') :
    (queryResult db objs cfg' today).length ≤
      (queryResult db objs cfg today).length := by
  unfold queryResult orderRows
  rw [List.length_take, List.length_take, List.length_mergeSort,
    List.length_mergeSort]
  have hmono : (matchingRows db objs cfg' today).length ≤
      (matchingRows db objs cfg today).length := by
    unfold matchingRows
    exact (List.monotone_filter_right db
      (fun b hb => rowPasses_imp h today (lookupObj objs b.tag) b hb)).length_le
  omega


/-- Witness for C7: adding a WO filter to the default configuration on the
151-row database does not increase the result size. -/
theorem filter_monotone_witness :
    FilterAdd {} { wo := "123" } ∧
    (queryResult db151 [] { wo := "123" } 0).length ≤
      (queryResult db151 [] ({} : FilterConfig) 0).length :=
  ⟨FilterAdd.wo {} "123" rfl (by decide),
   filter_monotone db151 [] 0 {} { wo := "123" }
     (FilterAdd.wo {} "123" rfl (by decide))⟩

theorem splitSkip_skip (sep : List Char) (l : List Char) (k : Nat) :
    splitSkip sep l k = splitSkip sep (l.drop k) 0 := by
  induction l generalizing k with
  | nil => cases k <;> rfl
  | cons c rest ih =>
    cases k with
    | zero => rfl
    | succ k' =>
      rw [show splitSkip sep (c :: rest) (k' + 1) = splitSkip sep rest k' from rfl,
        ih k', List.drop_succ_cons]

theorem splitSkip_ne_nil (sep : List Char) (l : List Char) (k : Nat) :
    splitSkip sep l k ≠ [] := by
  induction l generalizing k with
  | nil => cases k <;> simp [splitSkip]
  | cons c rest ih =>
    cases k with
    | succ k' => exact ih k'
    | zero =>
      simp only [splitSkip]
      split
      · simp
      · cases hsplit : splitSkip sep rest 0 <;> simp [hsplit]

theorem splitOnSeq_ne_nil (sep : List Char) (l : List Char) :
    splitOnSeq sep l ≠ [] := splitSkip_ne_nil sep l 0

theorem splitOnSeq_no_sep (sep : List Char) (l : List Char)
    (h : containsSeq sep l = false) : splitOnSeq sep l = [l] := by
  induction l with
  | nil => rfl
  | cons c rest ih =>
    have h' : sep.isPrefixOf (c :: rest) = false ∧ containsSeq sep rest = false := by
      simpa [containsSeq] using h
    have hrest := ih h'.2
    simp only [splitOnSeq] at hrest ⊢
    simp only [splitSkip, h'.1, Bool.false_eq_true, if_false]
    rw [hrest]

theorem isPrefixOf_append_of_le {p l : List Char} (t : List Char)
    (hle : p.length ≤ l.length) :
    p.isPrefixOf (l ++ t) = p.isPrefixOf l := by
  have hiff : p.isPrefixOf (l ++ t) = true ↔ p.isPrefixOf l = true := by
    rw [List.isPrefixOf_iff_prefix, List.isPrefixOf_iff_prefix]
    constructor
    · intro hpre
      rw [List.prefix_iff_eq_take] at hpre ⊢
      rwa [List.take_append_eq_append_take, Nat.sub_eq_zero_of_le hle,
        List.take_zero, List.append_nil] at hpre
    · intro hpre
      exact hpre.trans (List.prefix_append l t)
  cases hx : p.isPrefixOf (l ++ t) <;> cases hy : p.isPrefixOf l <;>
    simp_all

theorem suffixOf_false_mono {s a a' : List Char} (h : s.isSuffixOf a = false)
    (hsub : a' <:+ a) : s.isSuffixOf a' = false := by
  cases hx : s.isSuffixOf a' with
  | false => rfl
  | true =>
    exfalso
    rw [List.isSuffixOf_iff_suffix] at hx
    have hsa : s <:+ a := hx.trans hsub
    rw [← List.isSuffixOf_iff_suffix] at hsa
    rw [hsa] at h
    cases h

theorem not_suffixOf_of_last_ne {a s : List Char} {y : Char}
    (hs : s.getLast? = some y) (h : a.getLastD ' ' ≠ y) :
    s.isSuffixOf a = false := by
  cases hx : s.isSuffixOf a with
  | false => rfl
  | true =>
    exfalso
    rw [List.isSuffixOf_iff_suffix] at hx
    obtain ⟨t, rfl⟩ := hx
    rw [List.getLastD_eq_getLast?, List.getLast?_append, hs] at h
    exact h rfl

theorem splitSkip_cons_pos {sep : List Char} {c : Char} {rest : List Char}
    (h : sep.isPrefixOf (c :: rest) = true) :
    splitSkip sep (c :: rest) 0 =
      [] :: splitOnSeq sep (rest.drop (sep.length - 1)) := by
  simp only [splitSkip, h, if_true]
  rw [splitSkip_skip]
  rfl

theorem splitSkip_cons_neg {sep : List Char} {c : Char} {rest : List Char}
    (h : sep.isPrefixOf (c :: rest) = false) :
    splitSkip sep (c :: rest) 0 =
      match splitOnSeq sep rest with
      | [] => [[c]]
      | hd :: t => (c :: hd) :: t := by
  simp only [splitSkip, h, Bool.false_eq_true, if_false]
  rfl

theorem splitOnSeq_sep_cons (b : List Char) :
    splitOnSeq auditSep (auditSep ++ b) = [] :: splitOnSeq auditSep b := by
  have h1 : auditSep ++ b = ' ' :: ('|' :: ' ' :: b) := rfl
  have h2 : auditSep.isPrefixOf (' ' :: ('|' :: ' ' :: b)) = true := by
    simp [auditSep, List.isPrefixOf]
  rw [h1]
  rw [show splitOnSeq auditSep (' ' :: ('|' :: ' ' :: b))
      = splitSkip auditSep (' ' :: ('|' :: ' ' :: b)) 0 from rfl]
  rw [splitSkip_cons_pos h2]
  rfl

theorem splitSep_append_core :
    ∀ (n : Nat) (a b : List Char), a.length ≤ n →
      [' ', '|'].isSuffixOf a = false →
      splitOnSeq auditSep (a ++ auditSep ++ b) =
        splitOnSeq auditSep a ++ splitOnSeq auditSep b := by
  intro n
  induction n with
  | zero =>
    intro a b hlen _
    have ha : a = [] := List.eq_nil_of_length_eq_zero (Nat.le_zero.mp hlen)
    subst ha
    exact splitOnSeq_sep_cons b
  | succ n ih =>
    intro a b hlen hbad
    cases a with
    | nil => exact splitOnSeq_sep_cons b
    | cons c a' =>
      have hredu : (c :: a') ++ auditSep ++ b = c :: (a' ++ auditSep ++ b) := by
        simp
      have hlen' : a'.length ≤ n := by
        simp only [List.length_cons] at hlen
        omega
      by_cases hpre : auditSep.isPrefixOf (c :: a') = true
      · -- the separator begins right at this position inside `a`
        have hlen2 : 2 ≤ a'.length := by
          rw [List.isPrefixOf_iff_prefix] at hpre
          have hl := hpre.length_le
          simp [auditSep] at hl
          omega
        have hpre' : auditSep.isPrefixOf (c :: (a' ++ auditSep ++ b)) = true := by
          rw [show c :: (a' ++ auditSep ++ b) = (c :: a') ++ (auditSep ++ b) by
            simp]
          rw [isPrefixOf_append_of_le]
          · exact hpre
          · simp only [auditSep, List.length_cons, List.length_nil]
            omega
        rw [hredu]
        rw [show splitOnSeq auditSep (c :: (a' ++ auditSep ++ b))
            = splitSkip auditSep (c :: (a' ++ auditSep ++ b)) 0 from rfl]
        rw [show splitOnSeq auditSep (c :: a')
            = splitSkip auditSep (c :: a') 0 from rfl]
        rw [splitSkip_cons_pos hpre', splitSkip_cons_pos hpre]
        have hdrop : (a' ++ auditSep ++ b).drop (auditSep.length - 1) =
            a'.drop 2 ++ auditSep ++ b := by
          rw [show a' ++ auditSep ++ b = a' ++ (auditSep ++ b) by simp]
          rw [show auditSep.length - 1 = 2 from rfl]
          rw [List.drop_append_eq_append_drop, Nat.sub_eq_zero_of_le hlen2,
            List.drop_zero]
          simp
        rw [hdrop]
        have hbad' : [' ', '|'].isSuffixOf (a'.drop 2) = false :=
          suffixOf_false_mono hbad
            ((List.drop_suffix 2 a').trans (List.suffix_cons c a'))
        have hlend : (a'.drop 2).length ≤ n := by
          simp only [List.length_drop]
          omega
        rw [ih (a'.drop 2) b hlend hbad']
        rfl
      · -- no separator occurrence starting at this position
        have hpre0 : auditSep.isPrefixOf (c :: a') = false := by
          cases hx : auditSep.isPrefixOf (c :: a')
          · rfl
          · exact absurd hx hpre
        have hbad' : [' ', '|'].isSuffixOf a' = false :=
          suffixOf_false_mono hbad (List.suffix_cons c a')
        have hpre' : auditSep.isPrefixOf (c :: (a' ++ auditSep ++ b)) = false := by
          cases a' with
          | nil =>
            simp [auditSep, List.isPrefixOf]
          | cons d a'' =>
            cases a'' with
            | nil =>
              by_cases hc : c = ' '
              · by_cases hd : d = '|'
                · exfalso
                  subst hc
                  subst hd
                  simp [List.isSuffixOf] at hbad
                · have hdb : ('|' == d) = false :=
                    beq_eq_false_iff_ne.mpr (fun hh => hd hh.symm)
                  subst hc
                  simp [auditSep, List.isPrefixOf, hdb]
              · have hcb : (' ' == c) = false :=
                  beq_eq_false_iff_ne.mpr (fun hh => hc hh.symm)
                simp [auditSep, List.isPrefixOf, hcb]
            | cons e a''' =>
              rw [show c :: (d :: e :: a''' ++ auditSep ++ b)
                  = (c :: d :: e :: a''') ++ (auditSep ++ b) by simp]
              rw [isPrefixOf_append_of_le]
              · exact hpre0
              · simp only [auditSep, List.length_cons, List.length_nil]
                omega
        rw [hredu]
        rw [show splitOnSeq auditSep (c :: (a' ++ auditSep ++ b))
            = splitSkip auditSep (c :: (a' ++ auditSep ++ b)) 0 from rfl]
        rw [show splitOnSeq auditSep (c :: a')
            = splitSkip auditSep (c :: a') 0 from rfl]
        rw [splitSkip_cons_neg hpre', splitSkip_cons_neg hpre0]
        have hih := ih a' b hlen' hbad'
        cases hsp : splitOnSeq auditSep a' with
        | nil => exact absurd hsp (splitOnSeq_ne_nil auditSep a')
        | cons h' t' =>
          rw [hih, hsp]
          rfl

theorem splitSep_append (a b : List Char)
    (h : [' ', '|'].isSuffixOf a = false) :
    splitOnSeq auditSep (a ++ auditSep ++ b) =
      splitOnSeq auditSep a ++ splitOnSeq auditSep b :=
  splitSep_append_core a.length a b le_rfl h



theorem dropWhile_id {p : Char → Bool} {l : List Char}
    (h : p (l.headD ' ') = false) (hne : l ≠ []) : l.dropWhile p = l := by
  cases l with
  | nil => exact absurd rfl hne
  | cons c t =>
    simp only [List.headD_cons] at h
    simp [List.dropWhile_cons, h]

theorem pyStrip_id {s : List Char} (hne : s ≠ [])
    (hh : (s.headD ' ').isWhitespace = false)
    (hl : (s.getLastD ' ').isWhitespace = false) : pyStrip s = s := by
  unfold pyStrip
  rw [dropWhile_id hh hne]
  have hrev : s.reverse.headD ' ' = s.getLastD ' ' := by
    rw [List.headD_eq_head?, List.head?_reverse, List.getLastD_eq_getLast?]
  have hrne : s.reverse ≠ [] := by
    simp [hne]
  rw [dropWhile_id (by rw [hrev]; exact hl) hrne, List.reverse_reverse]

theorem goodAcc_parts {s : List Char} (h : goodAcc s = true) :
    s ≠ [] ∧ (s.headD ' ').isWhitespace = false ∧
    (s.getLastD ' ').isWhitespace = false ∧ s.getLastD ' ' ≠ '|' := by
  simp only [goodAcc, Bool.and_eq_true, Bool.not_eq_true',
    bne_iff_ne] at h
  obtain ⟨⟨⟨h1, h2⟩, h3⟩, h4⟩ := h
  exact ⟨by simpa using h1, h2, h3, h4⟩

theorem appendAudit_eq {acc seg : List Char} (ha : goodAcc acc = true) :
    appendAudit acc seg = acc ++ auditSep ++ seg := by
  obtain ⟨h1, h2, h3, h4⟩ := goodAcc_parts ha
  unfold appendAudit
  rw [pyStrip_id h1 h2 h3]
  have hsuf : auditSep.isSuffixOf acc = false := by
    apply not_suffixOf_of_last_ne (show auditSep.getLast? = some ' ' from rfl)
    intro hcontra
    rw [hcontra] at h3
    simp at h3
  have hie : acc.isEmpty = false := by
    cases acc with
    | nil => exact absurd rfl h1
    | cons _ _ => rfl
  simp only [hsuf, hie]
  rfl

theorem audit_step {acc seg : List Char} (ha : goodAcc acc = true)
    (hs : goodSeg seg = true) :
    splitSep (appendAudit acc seg) = splitSep acc ++ [seg] ∧
    goodAcc (appendAudit acc seg) = true := by
  obtain ⟨ha1, ha2, ha3, ha4⟩ := goodAcc_parts ha
  have hseg : seg ≠ [] ∧ hasSep seg = false ∧
      (seg.headD ' ').isWhitespace = false ∧
      (seg.getLastD ' ').isWhitespace = false ∧ seg.getLastD ' ' ≠ '|' := by
    simp only [goodSeg, Bool.and_eq_true, Bool.not_eq_true', bne_iff_ne] at hs
    obtain ⟨⟨⟨⟨h1, h2⟩, h3⟩, h4⟩, h5⟩ := hs
    exact ⟨by simpa using h1, h2, h3, h4, h5⟩
  rw [appendAudit_eq ha]
  have hbad : [' ', '|'].isSuffixOf acc = false := by
    apply not_suffixOf_of_last_ne (show ([' ', '|'] : List Char).getLast? = some '|' from rfl)
    exact ha4
  constructor
  · unfold splitSep
    rw [splitSep_append acc seg hbad]
    rw [show splitOnSeq auditSep seg = [seg] from
      splitOnSeq_no_sep auditSep seg hseg.2.1]
  · have hne : acc ++ auditSep ++ seg ≠ [] := by
      simp [ha1]
    have hhead : (acc ++ auditSep ++ seg).headD ' ' = acc.headD ' ' := by
      rw [List.headD_eq_head?, List.headD_eq_head?]
      rw [show acc ++ auditSep ++ seg = acc ++ (auditSep ++ seg) by simp]
      rw [List.head?_append_of_ne_nil _ ha1]
    have hlast : (acc ++ auditSep ++ seg).getLastD ' ' = seg.getLastD ' ' := by
      rw [List.getLastD_eq_getLast?, List.getLastD_eq_getLast?]
      rw [List.getLast?_append_of_ne_nil _ hseg.1]
    simp only [goodAcc, hhead, hlast, Bool.and_eq_true, Bool.not_eq_true',
      bne_iff_ne]
    refine ⟨⟨⟨by simpa using hne, ha2⟩, hseg.2.2.2.1⟩, hseg.2.2.2.2⟩

theorem audit_fold (segs : List (List Char)) :
    ∀ acc : List Char, goodAcc acc = true →
      (∀ s ∈ segs, goodSeg s = true) →
      splitSep (segs.foldl appendAudit acc) = splitSep acc ++ segs := by
  induction segs with
  | nil =>
    intro acc _ _
    simp
  | cons s rest ih =>
    intro acc ha hs
    have hstep := audit_step ha (hs s (List.mem_cons_self s rest))
    rw [List.foldl_cons]
    rw [ih (appendAudit acc s) hstep.2
      (fun x hx => hs x (List.mem_cons_of_mem s hx))]
    rw [hstep.1]
    simp

/-- C4: starting from a separator-free original audit value, N successive
updates through the audit-append of `render_edit_job_form` produce a field
with exactly N+1 `" | "`-separated segments whose first segment is the
original insert value, for every sequence of well-formed modifier
segments. -/
theorem audit_append_only (orig : List Char) (segs : List (List Char))
    (h0 : goodSeg orig = true) (hs : ∀ s ∈ segs, goodSeg s = true) :
    (splitSep (segs.foldl appendAudit orig)).length = segs.length + 1 ∧
    (splitSep (segs.foldl appendAudit orig)).headD [] = orig := by
  have hga : goodAcc orig = true := by
    simp only [goodSeg, Bool.and_eq_true] at h0
    simp only [goodAcc, Bool.and_eq_true]
    exact ⟨⟨⟨h0.1.1.1.1, h0.1.1.2⟩, h0.1.2⟩, h0.2⟩
  have hsplit0 : splitSep orig = [orig] := by
    unfold splitSep
    apply splitOnSeq_no_sep
    have := h0
    simp only [goodSeg, Bool.and_eq_true, Bool.not_eq_true'] at this
    exact this.1.1.1.2
  rw [audit_fold segs orig hga hs, hsplit0]
  constructor
  · simp
  · rfl

/-- Witness for C4: two concrete modifier appends on a concrete original
registrant string give 3 segments with the original preserved first. -/
theorem audit_append_only_witness :
    goodSeg "alice (PC1)".toList = true ∧
    (∀ s ∈ ["bob (PC2) (modifier)".toList, "carol (PC3) (modifier)".toList],
      goodSeg s = true) ∧
    (splitSep
      (["bob (PC2) (modifier)".toList, "carol (PC3) (modifier)".toList].foldl
        appendAudit "alice (PC1)".toList)).length = 3 ∧
    (splitSep
      (["bob (PC2) (modifier)".toList, "carol (PC3) (modifier)".toList].foldl
        appendAudit "alice (PC1)".toList)).headD [] = "alice (PC1)".toList :=
  ⟨by decide, by decide,
   (audit_append_only "alice (PC1)".toList
     ["bob (PC2) (modifier)".toList, "carol (PC3) (modifier)".toList]
     (by decide) (by decide)).1,
   (audit_append_only "alice (PC1)".toList
     ["bob (PC2) (modifier)".toList, "carol (PC3) (modifier)".toList]
     (by decide) (by decide)).2⟩

end RMMS
